import Mathlib

/-!
Verification of HDDBench (src/hddtest.py): a shallow embedding of the
benchmark's pure core — size-string parsing, human-readable byte
formatting, per-probe result construction, run-level aggregation,
campaign-level aggregation, sync-policy validation, and the free-space
guard of the fio mixed-workload sweep — together with theorems checking
the specification's claims against it.

Modelling conventions:
* Python floats are modelled exactly: elapsed times and speeds as `ℚ`,
  and the byte-count formatter's repeated division by 1024 as an exact
  numerator/denominator pair of naturals (the Python computation divides
  a float by powers of two only, which is exact for inputs below 2^53).
* Python exceptions (`ZeroDivisionError`, `ValueError`) are modelled by
  `Option`: `none` is a raised exception.
* The external `dd` subprocess is modelled by an oracle (`ProbeOutcome`)
  giving each probe's write and read outcome; thread-pool completion
  order is modelled by taking the probe-result list as given, in
  completion order.
-/

namespace HDDBench

/-! ### SizeParser: `parse_size` (src/hddtest.py lines 23-31)

`re.match(r'^(\d+\.?\d*)([KkMmGgTt]?)[Bb]?$', size_str)` followed by
`int(float(num) * units.get(unit, 1))`.  The regex's character classes
are disjoint, so the greedy match is deterministic and is embedded as a
sequence of total scanning functions over the character list.

Two value semantics are embedded on top of the same scanner:
`size_value` is the exact-rational idealization — the decimal number
times the multiplier, truncated toward zero — while `float_size_value`
below models `int(float(num) * mult)` faithfully under IEEE-754
binary64 rounding (the two differ, e.g. at `"9007199254740993"`).
Claims about which strings parse depend only on the shared scanner;
claims about the returned value use the binary64 semantics. -/

/-- Longest all-digit prefix of a character list, and the remainder
(models the regex engine consuming `\d+` / `\d*` greedily). -/
def span_digits : List Char → List Char × List Char
  | [] => ([], [])
  | c :: cs =>
    if c.isDigit then ((c :: (span_digits cs).1), (span_digits cs).2)
    else ([], c :: cs)

/-- Value of a digit string (models `int` applied to the digit run). -/
def digits_val (ds : List Char) : Nat :=
  ds.foldl (fun a c => 10 * a + (c.toNat - 48)) 0

/-- The `units` dictionary of `parse_size`: multiplier of a unit letter,
`none` when the character is not in the class `[KkMmGgTt]`. -/
def unit_mult (c : Char) : Option Nat :=
  if c = 'K' ∨ c = 'k' then some 1024
  else if c = 'M' ∨ c = 'm' then some (1024 ^ 2)
  else if c = 'G' ∨ c = 'g' then some (1024 ^ 3)
  else if c = 'T' ∨ c = 't' then some (1024 ^ 4)
  else none

/-- Consume the regex part `\.?\d*`: an optional dot followed by the
fraction digits.  Returns (fraction digits, remainder). -/
def after_dot (l : List Char) : List Char × List Char :=
  match l with
  | c :: t => if c = '.' then span_digits t else ([], l)
  | [] => ([], l)

/-- Consume the regex part `([KkMmGgTt]?)`: the unit multiplier (1 when
absent) and the remainder. -/
def after_unit (l : List Char) : Nat × List Char :=
  match l with
  | c :: t =>
    match unit_mult c with
    | some m => (m, t)
    | none => (1, l)
  | [] => (1, l)

/-- Consume the regex part `[Bb]?`. -/
def after_b (l : List Char) : List Char :=
  match l with
  | c :: t => if c = 'B' ∨ c = 'b' then t else l
  | [] => l

/-- The exact-rational idealization of line 31's value: the decimal
number with integer digits `ds` and fraction digits `fs`, times the
multiplier, truncated toward zero — `(ds * 10^|fs| + fs) * mult /
10^|fs|` with flooring division.  This is "number × multiplier
truncated toward zero" verbatim; the program's `float()` rounding makes
`int(float(num) * mult)` differ from it on some inputs (see
`float_size_value` for the faithful semantics). -/
def size_value (ds fs : List Char) (m : Nat) : Nat :=
  (digits_val ds * 10 ^ fs.length + digits_val fs) * m / 10 ^ fs.length

/-- `parse_size` on the character list, with the exact-rational value
idealization `size_value`: the whole list must match
`^(\d+\.?\d*)([KkMmGgTt]?)[Bb]?$`; `none` models the raised
`ValueError`.  Which inputs succeed is exactly the program's behavior
(the scanner is shared with `parse_size_float_chars`); the returned
value ignores double rounding. -/
def parse_size_chars (l : List Char) : Option Nat :=
  let p1 := span_digits l
  if p1.1 = [] then none
  else
    let p2 := after_dot p1.2
    let p3 := after_unit p2.2
    if after_b p3.2 = [] then some (size_value p1.1 p2.1 p3.1)
    else none

/-- `parse_size` (src/hddtest.py lines 23-31) with the exact-rational
value idealization; `parse_size_float` is the binary64-faithful
variant. -/
def parse_size (s : String) : Option Nat := parse_size_chars s.data

/-- Decimal digit character `d` (`0 ≤ d ≤ 9`; callers pass `n % 10`). -/
def digit_char (d : Nat) : Char :=
  if d = 0 then '0' else if d = 1 then '1' else if d = 2 then '2'
  else if d = 3 then '3' else if d = 4 then '4' else if d = 5 then '5'
  else if d = 6 then '6' else if d = 7 then '7' else if d = 8 then '8'
  else '9'

/-- Decimal digits of a natural number, structurally recursive on a
fuel bound so that the kernel can evaluate it (`fuel > n` always holds
at the call sites, so the fuel never runs out). -/
def nat_repr_aux (fuel : Nat) (n : Nat) : List Char :=
  match fuel with
  | 0 => []
  | fuel + 1 =>
    if n < 10 then [digit_char n]
    else nat_repr_aux fuel (n / 10) ++ [digit_char (n % 10)]

/-- Decimal digits of a natural number, as Python's `str` renders it. -/
def nat_repr (n : Nat) : List Char := nat_repr_aux (n + 1) n

/-- Round `num / den` half-to-even to the nearest integer (the rounding
`"%.2f"` applies after the value is scaled by 100). -/
def round_half_even (num den : Nat) : Nat :=
  let q := num / den
  let r := num % den
  if den < 2 * r then q + 1
  else if 2 * r < den then q
  else if q % 2 = 0 then q else q + 1

/-- Exactly two digits after the decimal point, zero-padded. -/
def two_dec_digits (d : Nat) : List Char :=
  if d < 10 then '0' :: nat_repr d else nat_repr d

/-- Characters of `f"{num/den:.2f}"` for a nonnegative exact value. -/
def format_two_dec_chars (num den : Nat) : List Char :=
  let rounded := round_half_even (num * 100) den
  nat_repr (rounded / 100) ++ '.' :: two_dec_digits (rounded % 100)

/-- The unit loop of `bytes_to_readable`: the running value is
`num / den` exactly; each non-returning iteration multiplies `den` by
1024; after the five units are exhausted the value is rendered in PB. -/
def bytes_to_readable_go (num den : Nat) : List (List Char) → List Char
  | [] => format_two_dec_chars num den ++ ' ' :: ['P', 'B']
  | u :: us =>
    if num < 1024 * den then format_two_dec_chars num den ++ ' ' :: u
    else bytes_to_readable_go num (den * 1024) us

/-- `bytes_to_readable` (src/hddtest.py lines 33-38) on an integer byte
count. -/
def bytes_to_readable (n : Nat) : String :=
  ⟨bytes_to_readable_go n 1 [['B'], ['K', 'B'], ['M', 'B'], ['G', 'B'], ['T', 'B']]⟩

/-! ### Per-probe driver: `test_file` (src/hddtest.py lines 40-74)

`test_file` shells out to `dd` for the write and (conditionally) the
read; the subprocess outcomes are modelled by an oracle `ProbeOutcome`:
an `Except` per step carrying either the elapsed wall time (a `ℚ`,
modelling the float difference of `time.monotonic()` calls) or the error
message of the raised `CalledProcessError`. -/

/-- The result dict built by `test_file`:
`{"index": ..., "write_time": ..., "read_time": ..., "error": ...}`. -/
structure FileProbeResult where
  index : Nat
  write_time : Option ℚ
  read_time : Option ℚ
  error : Option String
deriving DecidableEq

/-- A probe whose write step failed, as `test_file` records it
(src/hddtest.py lines 56-58). -/
def failed_probe : FileProbeResult :=
  { index := 1, write_time := none, read_time := none,
    error := some "Error writing testfile_1.dat" }

/-- Oracle for one probe's two `dd` invocations. -/
structure ProbeOutcome where
  writeResult : Except String ℚ
  readResult : Except String ℚ

/-- `test_file` (src/hddtest.py lines 40-74): a write-step failure
returns early with no read attempted; the read is attempted only when
`syncmode in ['sync', 'dsync']`; a read-step failure returns early with
the write time already recorded. -/
def test_file (file_index : Nat) (syncmode : String) (oc : ProbeOutcome) : FileProbeResult :=
  match oc.writeResult with
  | Except.error e => { index := file_index, write_time := none, read_time := none, error := some e }
  | Except.ok wt =>
    if syncmode = "sync" ∨ syncmode = "dsync" then
      match oc.readResult with
      | Except.error e => { index := file_index, write_time := some wt, read_time := none, error := some e }
      | Except.ok rt => { index := file_index, write_time := some wt, read_time := some rt, error := none }
    else { index := file_index, write_time := some wt, read_time := none, error := none }

/-! ### RunAggregator: `run_test_run` (src/hddtest.py lines 76-116)

The thread pool and `as_completed` loop are modelled by taking the list
of `FileProbeResult`s in completion order, together with the measured
wall-clock span of the batch.  Python's `ZeroDivisionError` — raised at
line 88 when a probe's `write_time` is `0.0` and at line 93 when the
run's duration is `0.0`, neither of which the code guards — is modelled
by returning `none`. -/

/-- The dict `run_test_run` returns (src/hddtest.py lines 108-116). -/
structure RunStats where
  run : Nat
  duration : ℚ
  overall_speed : ℚ
  avg_file_speed : ℚ
  files_successful : Nat
  data_written_bytes : Nat
  error_count : Nat
deriving DecidableEq

/-- `write_speed = bytes_per_file / result["write_time"] / (1024**2)`
(src/hddtest.py line 88). -/
def write_speed (bytes_per_file : Nat) (t : ℚ) : ℚ :=
  bytes_per_file / t / 1024 ^ 2

/-- `run_test_run` (src/hddtest.py lines 76-116) on the completed probe
results and the measured run duration.  `none` models the unguarded
`ZeroDivisionError`s (a zero per-probe write time at line 88, a zero
run duration at line 93). -/
def run_test_run (run_number files bytes_per_file : Nat)
    (results : List FileProbeResult) (run_duration : ℚ) : Option RunStats :=
  if results.any fun r => decide (r.write_time = some 0) then none
  else if run_duration = 0 then none
  else
    let total_written_speeds := results.filterMap fun r => r.write_time.map (write_speed bytes_per_file)
    let files_successful := (results.filter fun r => r.write_time.isSome).length
    some {
      run := run_number
      duration := run_duration
      overall_speed := (files * bytes_per_file : ℚ) / run_duration / 1024 ^ 2
      avg_file_speed :=
        if total_written_speeds.isEmpty then 0
        else total_written_speeds.sum / total_written_speeds.length
      files_successful := files_successful
      data_written_bytes := files_successful * bytes_per_file
      error_count := (results.filter fun r => r.error.isSome).length }

/-! ### CampaignAggregator: the accumulation loop of `main`
(src/hddtest.py lines 370-406) -/

/-- The campaign-level fields of the `overall_stats` dict
(src/hddtest.py lines 395-406); `total_data_written` is kept as the
accumulated byte count of line 385 (the dict stores its
`bytes_to_readable` rendering). -/
structure CampaignStats where
  avg_duration : ℚ
  avg_overall_speed : ℚ
  avg_file_speed : ℚ
  total_files_successful : Nat
  total_files : Nat
  total_data_written : Nat
  total_error_count : Nat
deriving DecidableEq

/-- `sum(l) / len(l) if l else 0` (src/hddtest.py lines 392-394). -/
def list_avg (l : List ℚ) : ℚ :=
  if l.isEmpty then 0 else l.sum / l.length

/-- The aggregation of `main` (src/hddtest.py lines 381-386, 392-406)
over the collected per-run results. -/
def campaign_stats (files runs : Nat) (run_results : List RunStats) : CampaignStats :=
  { avg_duration := list_avg (run_results.map fun r => r.duration)
    avg_overall_speed := list_avg (run_results.map fun r => r.overall_speed)
    avg_file_speed := list_avg (run_results.map fun r => r.avg_file_speed)
    total_files_successful := (run_results.map fun r => r.files_successful).sum
    total_files := files * runs
    total_data_written := (run_results.map fun r => r.data_written_bytes).sum
    total_error_count := (run_results.map fun r => r.error_count).sum }

/-- The run loop `for run in range(1, runs + 1)` (src/hddtest.py line
377): runs are strictly sequential; `exec` gives run number `i`'s
completed `RunStats`. -/
def run_campaign (runs : Nat) (exec : Nat → RunStats) : List RunStats :=
  (List.range runs).map fun i => exec (i + 1)

/-! ### Sync-policy validation (src/hddtest.py lines 349, 356-359) -/

/-- Lowercasing as `str.lower()` does on ASCII policy names (modelled
characterwise; `String.toLower` in this toolchain is not
kernel-reducible). -/
def lower_str (s : String) : String := ⟨s.data.map Char.toLower⟩

/-- `valid_syncmodes = ['none', 'direct', 'dsync', 'sync']`
(src/hddtest.py line 356). -/
def valid_syncmodes : List String := ["none", "direct", "dsync", "sync"]

/-- Lines 357-359: an unknown mode falls back to `'none'` after a
printed warning (the warning is output only; the campaign continues). -/
def sanitize_syncmode (syncmode : String) : String :=
  if syncmode ∈ valid_syncmodes then syncmode else "none"

/-- The full pipeline for the configured value: line 349 lowercases,
lines 356-359 validate with fallback. -/
def config_syncmode (raw : String) : String :=
  sanitize_syncmode (lower_str raw)

/-! ### MixedWorkloadProbe free-space guard: `run_disk_test`
(src/hddtest.py lines 275-281) -/

/-- Python's substring test `needle in hay` on character lists. -/
def contains_sub (needle : List Char) : List Char → Bool
  | [] => needle.isEmpty
  | c :: t => needle.isPrefixOf (c :: t) || contains_sub needle t

/-- `"arm" in arch or arch in ["aarch64", "arm"]` (line 278), for an
already-lowercased machine string. -/
def is_arm_arch (arch : String) : Bool :=
  contains_sub "arm".data arch.data || arch == "aarch64" || arch == "arm"

/-- The free-space skip condition of line 278:
`(("arm" in arch or arch in ["aarch64", "arm"]) and avail_kb < 524288)
or (avail_kb < 2097152)`, with `arch = platform.machine().lower()`
(line 277); `true` means the fio sweep is skipped for lack of space. -/
def skip_disk_test_for_space (machine : String) (avail_kb : Nat) : Bool :=
  let arch := lower_str machine
  (is_arm_arch arch && decide (avail_kb < 524288)) || decide (avail_kb < 2097152)

/-! ### IEEE-754 binary64 semantics of `int(float(num) * mult)`
(src/hddtest.py line 31)

CPython's `float(num)` converts the decimal literal to the nearest
binary64 double (round half to even; `inf` past the finite range), and
`float * int` converts the `int` operand to a double (exact for the unit
multipliers, all ≤ 2^40 < 2^53) and returns the correctly rounded
product.  Both steps are modelled exactly: a nonnegative value is a pair
`(a, b)` standing for `a / b`, and `fl` rounds it to the nearest
representable `m * 2^e` with `m < 2^53` and `e ≥ -1074`, returning
`none` for `inf` (a result at or above `2^1024`).  `int(...)` truncates
the nonnegative double toward zero — natural division of the exact
pair — and raises an uncaught `OverflowError` on `inf` (also `none`). -/

/-- Scanning an all-digit block followed by a remainder that does not
start with a digit consumes exactly the block. -/
theorem span_digits_append (A r : List Char) (hA : ∀ c ∈ A, c.isDigit = true)
    (hr : ∀ c t, r = c :: t → c.isDigit = false) :
    span_digits (A ++ r) = (A, r) := by
  induction A with
  | nil =>
    cases r with
    | nil => rfl
    | cons c t => simp [span_digits, hr c t rfl]
  | cons a A ih =>
    have ha := hA a (List.mem_cons_self a A)
    have hrec := ih fun c hc => hA c (List.mem_cons_of_mem a hc)
    simp [span_digits, ha, hrec]

theorem digit_char_isDigit (d : Nat) : (digit_char d).isDigit = true := by
  unfold digit_char
  repeat' split
  all_goals decide

theorem nat_repr_aux_digits (fuel : Nat) :
    ∀ n, ∀ c ∈ nat_repr_aux fuel n, c.isDigit = true := by
  induction fuel with
  | zero => intro n c hc; simp [nat_repr_aux] at hc
  | succ fuel ih =>
    intro n c hc
    rw [nat_repr_aux] at hc
    split at hc
    · simp at hc
      subst hc
      exact digit_char_isDigit n
    · rcases List.mem_append.mp hc with h | h
      · exact ih _ c h
      · simp at h
        subst h
        exact digit_char_isDigit _

theorem nat_repr_digits (n : Nat) : ∀ c ∈ nat_repr n, c.isDigit = true :=
  nat_repr_aux_digits (n + 1) n

theorem nat_repr_ne_nil (n : Nat) : nat_repr n ≠ [] := by
  rw [nat_repr, nat_repr_aux]
  split
  · simp
  · simp

theorem two_dec_digits_digits (d : Nat) : ∀ c ∈ two_dec_digits d, c.isDigit = true := by
  intro c hc
  unfold two_dec_digits at hc
  split at hc
  · rcases List.mem_cons.mp hc with rfl | hc
    · decide
    · exact nat_repr_digits d c hc
  · exact nat_repr_digits d c hc

theorem after_dot_cons_dot (t : List Char) : after_dot ('.' :: t) = span_digits t := by
  simp [after_dot]

theorem after_dot_nil : after_dot [] = ([], []) := rfl

theorem after_unit_cons_none (c : Char) (t : List Char) (h : unit_mult c = none) :
    after_unit (c :: t) = (1, c :: t) := by
  simp [after_unit, h]

theorem after_unit_nil : after_unit [] = (1, []) := rfl

theorem after_b_other (c : Char) (t : List Char) (h : ¬(c = 'B' ∨ c = 'b')) :
    after_b (c :: t) = c :: t := by
  simp [after_b, h]

/-- `parse_size_chars` with its `let`s written out, for rewriting. -/
theorem parse_size_chars_eq (l : List Char) :
    parse_size_chars l =
      if (span_digits l).1 = [] then none
      else if after_b (after_unit (after_dot (span_digits l).2).2).2 = [] then
        some (size_value (span_digits l).1 (after_dot (span_digits l).2).1
          (after_unit (after_dot (span_digits l).2).2).1)
      else none := rfl

/-! ## The C2 round-trip: the formatter's output never matches the
parser's grammar, because of the space before the unit. -/

/-- `parse_size` rejects any `"%.2f"` rendering followed by a space and
anything further: the scanner stops at the space, which is neither a
unit letter nor `B`, leaving a non-empty remainder. -/
theorem parse_chars_format_space (num den : Nat) (C : List Char) :
    parse_size_chars (format_two_dec_chars num den ++ ' ' :: C) = none := by
  have hshape : format_two_dec_chars num den ++ ' ' :: C
      = nat_repr (round_half_even (num * 100) den / 100) ++
        ('.' :: (two_dec_digits (round_half_even (num * 100) den % 100) ++ ' ' :: C)) := by
    simp [format_two_dec_chars, List.append_assoc]
  rw [hshape]
  have h1 := span_digits_append (nat_repr (round_half_even (num * 100) den / 100))
    ('.' :: (two_dec_digits (round_half_even (num * 100) den % 100) ++ ' ' :: C))
    (nat_repr_digits _) (by intro c t h; cases h; decide)
  have h2 := span_digits_append (two_dec_digits (round_half_even (num * 100) den % 100))
    (' ' :: C) (two_dec_digits_digits _) (by intro c t h; cases h; decide)
  have hmu : unit_mult ' ' = none := by decide
  rw [parse_size_chars_eq, h1]
  rw [if_neg (by simpa using nat_repr_ne_nil (round_half_even (num * 100) den / 100))]
  simp only [after_dot_cons_dot, h2, after_unit_cons_none _ _ hmu,
    after_b_other ' ' C (by decide)]
  rw [if_neg (by simp)]

/-- Every output of the unit loop is a `"%.2f"` rendering, a space, and
a unit name. -/
theorem bytes_to_readable_go_shape (us : List (List Char)) :
    ∀ num den, ∃ a b C,
      bytes_to_readable_go num den us = format_two_dec_chars a b ++ ' ' :: C := by
  induction us with
  | nil => exact fun num den => ⟨num, den, ['P', 'B'], rfl⟩
  | cons u us ih =>
    intro num den
    by_cases h : num < 1024 * den
    · exact ⟨num, den, u, by simp [bytes_to_readable_go, h]⟩
    · obtain ⟨a, b, C, hh⟩ := ih num (den * 1024)
      exact ⟨a, b, C, by simp [bytes_to_readable_go, h, hh]⟩

/-! ## The parse_size grammar: soundness and completeness -/

theorem length_filter_write_add (rs : List FileProbeResult) :
    (rs.filter fun r => r.write_time.isSome).length
      + (rs.filter fun r => decide (r.write_time = none)).length = rs.length := by
  induction rs with
  | nil => rfl
  | cons r rs ih =>
    cases hw : r.write_time <;> simp [List.filter_cons, hw] <;> omega

theorem speeds_length (bpf : Nat) (rs : List FileProbeResult) :
    (rs.filterMap fun r => r.write_time.map (write_speed bpf)).length
      = (rs.filter fun r => r.write_time.isSome).length := by
  induction rs with
  | nil => rfl
  | cons r rs ih => cases hw : r.write_time <;> simp [List.filterMap_cons, List.filter_cons, hw, ih]

theorem run_test_run_eq (n files bpf : Nat) (rs : List FileProbeResult) (d : ℚ)
    (hz : ∀ r ∈ rs, r.write_time ≠ some 0) (hd : d ≠ 0) :
    run_test_run n files bpf rs d = some {
      run := n
      duration := d
      overall_speed := (files * bpf : ℚ) / d / 1024 ^ 2
      avg_file_speed :=
        if (rs.filterMap fun r => r.write_time.map (write_speed bpf)).isEmpty then 0
        else (rs.filterMap fun r => r.write_time.map (write_speed bpf)).sum
          / (rs.filterMap fun r => r.write_time.map (write_speed bpf)).length
      files_successful := (rs.filter fun r => r.write_time.isSome).length
      data_written_bytes := (rs.filter fun r => r.write_time.isSome).length * bpf
      error_count := (rs.filter fun r => r.error.isSome).length } := by
  have hany : (rs.any fun r => decide (r.write_time = some 0)) = false := by
    rw [List.any_eq_false]
    intro r hr
    simp [hz r hr]
  unfold run_test_run
  rw [if_neg (by simp [hany]), if_neg hd]

/-! ## The claims -/

/-- Claim C1 (code bug): the free-space check of `run_disk_test` was
meant to give ARM hosts the lower 524288 KB threshold, but the second
disjunct `avail_kb < 2097152` of line 278 applies to every architecture,
so an ARM host with 1048576 KB free (at or above the ARM threshold) is
still skipped; the whole condition collapses to `avail_kb < 2097152`
regardless of architecture, making the ARM clause dead code (the very
next line sizes the fio file at 512M for ARM versus 2G otherwise,
matching the two intended thresholds). -/
theorem skip_space_check_ignores_arm_threshold :
    skip_disk_test_for_space "aarch64" 1048576 = true ∧
    ∀ machine avail_kb,
      skip_disk_test_for_space machine avail_kb = decide (avail_kb < 2097152) := by
  constructor
  · decide
  · intro machine avail_kb
    unfold skip_disk_test_for_space
    by_cases h : avail_kb < 524288
    · have h2 : avail_kb < 2097152 := by omega
      simp [h, h2]
    · simp [h]

/-- Claim C2 counterexample: already at `n = 0` the format-and-reparse
round trip fails: `bytes_to_readable 0 = "0.00 B"` and `parse_size`
raises on `"0.00 B"` (the space is not in its grammar), so the parse
does not succeed with value 0. -/
theorem readable_roundtrip_fails_at_zero :
    bytes_to_readable 0 = "0.00 B" ∧ parse_size (bytes_to_readable 0) = none := by
  constructor
  · decide
  · decide

/-- Claim C2 (amended): for every byte count `n`, re-parsing the
canonical `bytes_to_readable` output with `parse_size` fails — the
formatter always puts a space between the number and the unit, which the
regex `^(\d+\.?\d*)([KkMmGgTt]?)[Bb]?$` rejects — so the round trip
never succeeds, let alone within unit-rounding tolerance. -/
theorem readable_output_never_parses (n : Nat) :
    parse_size (bytes_to_readable n) = none := by
  obtain ⟨a, b, C, h⟩ :=
    bytes_to_readable_go_shape [['B'], ['K', 'B'], ['M', 'B'], ['G', 'B'], ['T', 'B']] n 1
  show parse_size_chars
    (bytes_to_readable_go n 1 [['B'], ['K', 'B'], ['M', 'B'], ['G', 'B'], ['T', 'B']]) = none
  rw [h]
  exact parse_chars_format_space a b C

/-- Claim C3: under sync policy `"sync"` or `"dsync"`, a probe whose
write succeeds (elapsed `wt`) and whose read fails has `write_time` set
to `some wt`, `read_time` null and `error` non-null; the probe still
counts toward `files_successful` and toward the error count, and run
aggregation over it completes (returns `some`). -/
theorem dsync_read_failure_preserves_write_time (i : Nat) (sm : String) (wt : ℚ)
    (e : String) (oc : ProbeOutcome) (d : ℚ) (n bpf : Nat)
    (hsm : sm = "sync" ∨ sm = "dsync")
    (hw : oc.writeResult = Except.ok wt)
    (hr : oc.readResult = Except.error e)
    (hwz : wt ≠ 0) (hd : d ≠ 0) :
    (test_file i sm oc).write_time = some wt ∧
    (test_file i sm oc).read_time = none ∧
    (test_file i sm oc).error = some e ∧
    ∃ stats, run_test_run n 1 bpf [test_file i sm oc] d = some stats ∧
      stats.files_successful = 1 ∧ stats.error_count = 1 := by
  have htf : test_file i sm oc = { index := i, write_time := some wt, read_time := none, error := some e } := by
    rcases hsm with rfl | rfl <;> simp [test_file, hw, hr]
  refine ⟨by rw [htf], by rw [htf], by rw [htf], ?_⟩
  refine ⟨_, run_test_run_eq n 1 bpf [test_file i sm oc] d ?_ hd, ?_, ?_⟩
  · intro r hrm
    rw [List.mem_singleton] at hrm
    subst hrm
    rw [htf]
    simp [hwz]
  · simp [htf]
  · simp [htf]

/-- Claim C3 witness at policy `"dsync"`, write time 1, a failed read. -/
theorem dsync_read_failure_preserves_write_time_witness :
    (test_file 1 "dsync" ⟨Except.ok 1, Except.error "Error reading"⟩).write_time = some 1 ∧
    (test_file 1 "dsync" ⟨Except.ok 1, Except.error "Error reading"⟩).read_time = none ∧
    (test_file 1 "dsync" ⟨Except.ok 1, Except.error "Error reading"⟩).error = some "Error reading" ∧
    ∃ stats, run_test_run 1 1 1024
        [test_file 1 "dsync" ⟨Except.ok 1, Except.error "Error reading"⟩] 1 = some stats ∧
      stats.files_successful = 1 ∧ stats.error_count = 1 :=
  dsync_read_failure_preserves_write_time 1 "dsync" 1 "Error reading"
    ⟨Except.ok 1, Except.error "Error reading"⟩ 1 1 1024 (Or.inr rfl) rfl rfl
    (by norm_num) (by norm_num)

/-- Claim C4: for a run of `N` probes of which exactly `k` failed at the
write step, `files_successful = N - k`, `data_written_bytes =
(N - k) * bytes_per_file`, and `avg_file_speed` is the sum of the
per-probe write speeds of the `N - k` write-successful probes divided by
`N - k` (never by `N`), and zero when no probe succeeded. -/
theorem avg_file_speed_divides_by_successes (rs : List FileProbeResult)
    (n N k bpf : Nat) (d : ℚ)
    (hN : rs.length = N)
    (hk : (rs.filter fun r => decide (r.write_time = none)).length = k)
    (hz : ∀ r ∈ rs, r.write_time ≠ some 0)
    (hd : d ≠ 0) :
    ∃ stats, run_test_run n N bpf rs d = some stats ∧
      stats.files_successful = N - k ∧
      stats.data_written_bytes = (N - k) * bpf ∧
      stats.avg_file_speed = if N - k = 0 then 0
        else (rs.filterMap fun r => r.write_time.map (write_speed bpf)).sum
          / ((N - k : Nat) : ℚ) := by
  have hsucc : (rs.filter fun r => r.write_time.isSome).length = N - k := by
    have := length_filter_write_add rs
    omega
  have hlen := speeds_length bpf rs
  refine ⟨_, run_test_run_eq n N bpf rs d hz hd, by simpa using hsucc, by simp [hsucc], ?_⟩
  by_cases h0 : N - k = 0
  · have hemp : (rs.filterMap fun r => r.write_time.map (write_speed bpf)).isEmpty = true := by
      rw [List.isEmpty_iff_length_eq_zero, hlen, hsucc, h0]
    simp [hemp, h0]
  · have hemp : (rs.filterMap fun r => r.write_time.map (write_speed bpf)).isEmpty = false := by
      rw [List.isEmpty_eq_false_iff_exists_mem]
      by_contra hcon
      push_neg at hcon
      have : (rs.filterMap fun r => r.write_time.map (write_speed bpf)) = [] :=
        List.eq_nil_iff_forall_not_mem.mpr hcon
      rw [← List.length_eq_zero] at this
      omega
    simp only [hemp, if_false, h0, hlen, hsucc]
    simp

/-- Claim C4 witness: two probes, one write failure. -/
theorem avg_file_speed_divides_by_successes_witness :
    ∃ stats, run_test_run 1 2 1024
        [⟨1, some 1, none, none⟩, ⟨2, none, none, some "Error writing"⟩] 1 = some stats ∧
      stats.files_successful = 2 - 1 ∧
      stats.data_written_bytes = (2 - 1) * 1024 ∧
      stats.avg_file_speed = if 2 - 1 = 0 then 0
        else (([⟨1, some 1, none, none⟩, ⟨2, none, none, some "Error writing"⟩] :
            List FileProbeResult).filterMap
          fun r => r.write_time.map (write_speed 1024)).sum / ((2 - 1 : Nat) : ℚ) :=
  avg_file_speed_divides_by_successes
    [⟨1, some 1, none, none⟩, ⟨2, none, none, some "Error writing"⟩] 1 2 1 1024 1 rfl rfl
    (by intro r hr
        simp only [List.mem_cons, List.not_mem_nil, or_false] at hr
        rcases hr with rfl | rfl <;> simp)
    (by norm_num)

/-- Claim C5: `overall_speed` is computed from the expected total
`files * bytes_per_file` divided by the wall-clock span (in MiB/s),
independent of the probe results; concretely, a run with one failed
probe has `overall_speed = 1` although the confirmed-bytes figure would
be 0. -/
theorem overall_speed_uses_expected_bytes (rs : List FileProbeResult)
    (n files bpf : Nat) (d : ℚ)
    (hz : ∀ r ∈ rs, r.write_time ≠ some 0) (hd : d ≠ 0) :
    (∃ stats, run_test_run n files bpf rs d = some stats ∧
      stats.overall_speed = (files * bpf : ℚ) / d / 1024 ^ 2 ∧
      stats.data_written_bytes = (rs.filter fun r => r.write_time.isSome).length * bpf) ∧
    (∃ s, run_test_run 1 1 1048576 [failed_probe] 1 = some s ∧
      s.overall_speed = 1 ∧ (s.data_written_bytes : ℚ) / 1 / 1024 ^ 2 = 0 ∧
      s.overall_speed ≠ (s.data_written_bytes : ℚ) / 1 / 1024 ^ 2) := by
  constructor
  · exact ⟨_, run_test_run_eq n files bpf rs d hz hd, rfl, rfl⟩
  · refine ⟨⟨1, 1, 1, 0, 0, 0, 1⟩, ?_, rfl, by norm_num, by norm_num⟩
    rw [run_test_run_eq 1 1 1048576 [failed_probe] 1 (by simp [failed_probe]) (by norm_num)]
    simp [failed_probe]
    norm_num

/-- Claim C5 witness: an empty result list and the one-failed-probe run. -/
theorem overall_speed_uses_expected_bytes_witness :
    (∃ stats, run_test_run 1 4 1024 [] 1 = some stats ∧
      stats.overall_speed = ((4 : Nat) * (1024 : Nat) : ℚ) / 1 / 1024 ^ 2 ∧
      stats.data_written_bytes =
        (([] : List FileProbeResult).filter fun r => r.write_time.isSome).length * 1024) ∧
    (∃ s, run_test_run 1 1 1048576 [failed_probe] 1 = some s ∧
      s.overall_speed = 1 ∧ (s.data_written_bytes : ℚ) / 1 / 1024 ^ 2 = 0 ∧
      s.overall_speed ≠ (s.data_written_bytes : ℚ) / 1 / 1024 ^ 2) :=
  overall_speed_uses_expected_bytes [] 1 4 1024 1 (by simp) (by norm_num)

/-- Claim C7: `read_time` can be populated only under sync policies
`"sync"` and `"dsync"`; under any other policy — `"none"` and
`"direct"` in particular — no read is attempted and `read_time` is
null. -/
theorem read_time_only_for_sync_policies (i : Nat) (sm : String) (oc : ProbeOutcome) :
    (¬(sm = "sync" ∨ sm = "dsync") → (test_file i sm oc).read_time = none) ∧
    ((test_file i sm oc).read_time.isSome = true → (sm = "sync" ∨ sm = "dsync")) ∧
    (test_file i "none" oc).read_time = none ∧
    (test_file i "direct" oc).read_time = none := by
  have key : ∀ sm', ¬(sm' = "sync" ∨ sm' = "dsync") → (test_file i sm' oc).read_time = none := by
    intro sm' h
    cases hw : oc.writeResult <;> simp [test_file, hw, h]
  refine ⟨key sm, ?_, key "none" (by decide), key "direct" (by decide)⟩
  intro h
  by_contra hn
  rw [key sm hn] at h
  simp at h

/-- Claim C8: with a configured run count of 0 the campaign executes no
runs, and every aggregate — average duration, average overall and
per-file throughput, total successful files, total bytes, total errors,
total files — is zero, with no division by zero (the `if l else 0`
guards). -/
theorem zero_runs_zero_aggregates (files : Nat) (exec : Nat → RunStats) :
    run_campaign 0 exec = [] ∧
    campaign_stats files 0 (run_campaign 0 exec) =
      { avg_duration := 0, avg_overall_speed := 0, avg_file_speed := 0,
        total_files_successful := 0, total_files := 0, total_data_written := 0,
        total_error_count := 0 } := by
  constructor
  · rfl
  · rfl

/-- Claim C9: a configured sync-policy string whose lowercase form is
outside `{none, direct, dsync, sync}` falls back to `"none"` (after a
printed warning), and the validated policy is always a member of the
enum — validation is total, never a fatal error. -/
theorem unknown_syncmode_falls_back_to_none (raw : String) :
    (lower_str raw ∉ valid_syncmodes → config_syncmode raw = "none") ∧
    config_syncmode raw ∈ valid_syncmodes := by
  constructor
  · intro h
    simp [config_syncmode, sanitize_syncmode, h]
  · unfold config_syncmode sanitize_syncmode
    split
    · assumption
    · decide

/-- Claim C10 (implicit): the run-level overall-throughput division by
the measured wall-clock span is unguarded — at span 0 the computation
raises (`none`), while for any non-zero span (and non-zero write times)
it is defined — unlike the explicitly guarded R = 0 campaign
aggregation, which yields zeros. -/
theorem overall_speed_unguarded_zero_duration (n files bpf : Nat)
    (rs : List FileProbeResult) :
    run_test_run n files bpf rs 0 = none ∧
    (∀ d : ℚ, d ≠ 0 → (∀ r ∈ rs, r.write_time ≠ some 0) →
      (run_test_run n files bpf rs d).isSome = true) ∧
    campaign_stats files 0 [] =
      { avg_duration := 0, avg_overall_speed := 0, avg_file_speed := 0,
        total_files_successful := 0, total_files := 0, total_data_written := 0,
        total_error_count := 0 } := by
  refine ⟨?_, ?_, rfl⟩
  · unfold run_test_run
    by_cases h : (rs.any fun r => decide (r.write_time = some 0)) = true
    · rw [if_pos h]
    · rw [if_neg h, if_pos rfl]
  · intro d hd hz
    rw [run_test_run_eq n files bpf rs d hz hd]
    rfl

end HDDBench
